import Mathlib

/-!
Verification of the momentum-trader signal pipeline.

The repository ships a React dashboard (src/App.jsx) whose scoring engine
(PillarScorer, CompositeScorer, GradeClassifier, RiskClassifier,
RecommendationEngine, TradeSetupCalculator, AlertGenerator, SignalAggregator)
is described in the specification but absent from src/; only hardcoded demo
fixtures and the UI colour helpers are executable code.  Components absent
from src/ are therefore modelled from the specification text; the UI helpers
and the demo fixture list are embedded directly from src/App.jsx.

Numbers are embedded as exact rationals (ℚ).
-/

namespace MomentumTrader

/-- Letter grades, the fixed ordered set of the specification. -/
inductive Grade
  | Aplus
  | A
  | Bplus
  | B
  | C
  | D
deriving DecidableEq

/-- Trading recommendations. -/
inductive Recommendation
  | strongBuy
  | buy
  | hold
  | sell
  | strongSell
deriving DecidableEq

/-- Risk tiers. -/
inductive RiskTier
  | low
  | medium
  | high
deriving DecidableEq

/-- Minimum of two rationals, written with an if so that it reduces in the
kernel; embeds Math.min. -/
def minQ (a b : ℚ) : ℚ := if a ≤ b then a else b

/-- Maximum of two rationals; embeds Math.max. -/
def maxQ (a b : ℚ) : ℚ := if a ≤ b then b else a

/-- Clamp x into the interval from lo to hi. -/
def clampQ (lo hi x : ℚ) : ℚ := maxQ lo (minQ hi x)

theorem minQ_eq_min (a b : ℚ) : minQ a b = min a b := by
  unfold minQ
  split_ifs with h
  · exact (min_eq_left h).symm
  · exact (min_eq_right (le_of_not_le h)).symm

theorem maxQ_eq_max (a b : ℚ) : maxQ a b = max a b := by
  unfold maxQ
  split_ifs with h
  · exact (max_eq_right h).symm
  · exact (max_eq_left (le_of_not_le h)).symm

/-- Modelled from the spec: GradeClassifier (section 4.3), absent from src/.
Deterministic threshold table on compositeScore, evaluated highest-first,
first match wins. -/
def gradeOf (c : ℚ) : Grade :=
  if 90 ≤ c then .Aplus
  else if 85 ≤ c then .A
  else if 80 ≤ c then .Bplus
  else if 75 ≤ c then .B
  else if 65 ≤ c then .C
  else .D

/-- Modelled from the spec: RecommendationEngine (section 4.5), absent from
src/; the score-to-recommendation table before the negative-move downgrade. -/
def baseRecommendation (ross comp : ℚ) : Recommendation :=
  if 90 ≤ ross ∧ 85 ≤ comp then .strongBuy
  else if 75 ≤ ross then .buy
  else if 50 ≤ ross then .hold
  else if 30 ≤ ross then .sell
  else .strongSell

/-- Modelled from the spec: the one-tier downgrade of RecommendationEngine. -/
def downgradeOne : Recommendation → Recommendation
  | .strongBuy => .buy
  | .buy => .hold
  | r => r

/-- Modelled from the spec: full RecommendationEngine including the
negative-priceChangePct one-tier downgrade. -/
def recommendationOf (ross comp chg : ℚ) : Recommendation :=
  let r := baseRecommendation ross comp
  if chg < 0 ∧ (r = .buy ∨ r = .strongBuy) then downgradeOne r else r

/-- Catalyst types named by the point table of the specification
(section 4.1, Catalyst pillar). -/
inductive Catalyst
  | fda
  | partnership
  | earningsBeat
  | shortSqueeze
deriving DecidableEq

/-- Modelled from the spec: the per-type catalyst point table
(FDA approval 40, partnership 25, earnings beat 20, short-squeeze chatter 15). -/
def catalystPoints : Catalyst → ℚ
  | .fda => 40
  | .partnership => 25
  | .earningsBeat => 20
  | .shortSqueeze => 15

/-- Modelled from the spec: Catalyst pillar, sum of the point table capped
at 100; zero catalysts yield 0. -/
def catalystScore (cs : List Catalyst) : ℚ :=
  minQ 100 ((cs.map catalystPoints).sum)

/-- Modelled from the spec: Volume pillar with a configurable
targetRelativeVolume. -/
def volumeScorer (target rv : ℚ) : ℚ := minQ 100 (100 * rv / target)

/-- Volume pillar at the default targetRelativeVolume of 2.0. -/
def volumeScore (rv : ℚ) : ℚ := volumeScorer 2 rv

/-- Modelled from the spec: PriceChange pillar, magnitude only, default
targetGapPct 4.0. -/
def priceChangeScore (chg : ℚ) : ℚ := minQ 100 (100 * |chg| / 4)

/-- Modelled from the spec: Float pillar, 100 up to the low-float threshold
(default 20M), linear decay to 0 at the max threshold (default 30M), 0
beyond. -/
def floatScore (f : ℚ) : ℚ :=
  if f ≤ 20000000 then 100
  else if 30000000 ≤ f then 0
  else (30000000 - f) * 100 / 10000000

/-- Modelled from the spec: PriceRange pillar, 100 inside the default band
[2, 20]; outside, linear decay to 0 over a penalty width of 50 percent of
the band edge (width 1 below the low edge, width 10 above the high edge),
never negative. -/
def priceRangeScore (p : ℚ) : ℚ :=
  if p < 2 then maxQ 0 (100 * (p - 1) / 1)
  else if p ≤ 20 then 100
  else maxQ 0 (100 * (30 - p) / 10)

/-- Modelled from the spec: rossScore, equal-weight average of the five
pillars (default pillar weights 0.2 each). -/
def rossScoreOf (v pc f c pr : ℚ) : ℚ := (v + pc + f + c + pr) / 5

/-- Modelled from the spec: technical confirmation sub-score from EMA
alignment (price above ema9 above ema20 gives 100; price above ema9 only
gives 60; otherwise, including missing indicators, the else band 20). -/
def technicalScore (price : ℚ) (ema9 ema20 : Option ℚ) : ℚ :=
  match ema9, ema20 with
  | some a, some b => if a < price ∧ b < a then 100 else if a < price then 60 else 20
  | some a, none => if a < price then 60 else 20
  | none, _ => 20

/-- Modelled from the spec: news sub-score, clamp(0,100, 50 + 50 * s) when
sentiment is present, neutral 50 when absent. -/
def newsScore (s : Option ℚ) : ℚ :=
  match s with
  | some x => clampQ 0 100 (50 + 50 * x)
  | none => 50

/-- Modelled from the spec: compositeScore with default weights
0.6, 0.25, 0.15. -/
def compositeScoreOf (ross tech news : ℚ) : ℚ :=
  6 / 10 * ross + 25 / 100 * tech + 15 / 100 * news

/-- Modelled from the spec: RiskClassifier rule table (section 4.4).  Start
at LOW; escalate to MEDIUM if floatShares below 30M or relativeVolume above
5; escalate to HIGH if floatShares below 5M or relativeVolume above 15, or
if both MEDIUM conditions hold simultaneously. -/
def riskOf (f rv : ℚ) : RiskTier :=
  if f < 5000000 ∨ 15 < rv ∨ (f < 30000000 ∧ 5 < rv) then .high
  else if f < 30000000 ∨ 5 < rv then .medium
  else .low

/-- Modelled from the spec: TradeSetupCalculator entry price, last price
plus the default slippage buffer of 1 percent. -/
def entryPrice (price : ℚ) : ℚ := price * (101 / 100)

/-- Modelled from the spec: stop distance, the volatility factor clamped to
[minStopPct, maxStopPct] (defaults 0.05 and 0.15) times the entry. -/
def stopDistance (vf e : ℚ) : ℚ := clampQ (5 / 100) (15 / 100) vf * e

/-- Modelled from the spec: stop loss, entry minus stop distance. -/
def stopLossOf (e sd : ℚ) : ℚ := e - sd

/-- Modelled from the spec: take profit, entry plus riskRewardRatio (default
2.0) times stop distance. -/
def takeProfitOf (e sd : ℚ) : ℚ := e + 2 * sd

/-- Keep the first occurrence of every tag, dropping tags already seen. -/
def dedupFirstAux : List String → List String → List String
  | _, [] => []
  | seen, a :: l =>
    if a ∈ seen then dedupFirstAux seen l
    else a :: dedupFirstAux (a :: seen) l

/-- Deduplication keeping first occurrences, so that ties keep rule-table
order. -/
def dedupFirst (l : List String) : List String := dedupFirstAux [] l

/-- Modelled from the spec: AlertGenerator (section 4.7), absent from src/.
The rule table is evaluated in severity order (highest first), each rule
yielding zero or one tag; the candidate list is deduplicated and truncated
to the top 4 tags. -/
def alertGenerator (candidates : List String) : List String :=
  (dedupFirst candidates).take 4

/-- The GITS alert list hardcoded in src/App.jsx. -/
def gitsAlerts : List String :=
  ["🔥 EXCEPTIONAL SETUP", "🚀 MASSIVE VOLUME", "🎯 PERFECT ROSS SETUP"]

/-- The per-symbol fields of the demo fixtures that the ranking claim is
about. -/
structure SignalRow where
  symbol : String
  rossScore : ℚ
  compositeScore : ℚ
deriving DecidableEq

/-- The sampleStocks array of src/App.jsx, restricted to the ranking
fields: GITS 97/88.6, NVAX 85/85.0, MEME 95/86.9, TSLA 69/73.1, in source
order. -/
def sampleStocks : List SignalRow :=
  [⟨"GITS", 97, 443 / 5⟩, ⟨"NVAX", 85, 85⟩,
   ⟨"MEME", 95, 869 / 10⟩, ⟨"TSLA", 69, 731 / 10⟩]

/-- The Top Ross Cameron Signals list rendered by src/App.jsx: the code
takes sampleStocks.slice(0, 3) with no sorting. -/
def topSignalsDisplayed : List SignalRow := sampleStocks.take 3

/-- The ranking order of the specification: rossScore descending, ties by
compositeScore descending, then symbol ascending. -/
def signalLE (a b : SignalRow) : Bool :=
  if a.rossScore = b.rossScore then
    if a.compositeScore = b.compositeScore then a.symbol ≤ b.symbol
    else decide (b.compositeScore < a.compositeScore)
  else decide (b.rossScore < a.rossScore)

/-- Insert one row into a ranked list, keeping earlier-input rows first on
ties (stability). -/
def insertSig (a : SignalRow) : List SignalRow → List SignalRow
  | [] => [a]
  | b :: l => if signalLE a b then a :: b :: l else b :: insertSig a l

/-- Stable insertion sort by the specification ranking order. -/
def rankSignals : List SignalRow → List SignalRow
  | [] => []
  | a :: l => insertSig a (rankSignals l)

/-- Whether a list of rows is in rossScore-descending order. -/
def sortedByRossDesc : List SignalRow → Bool
  | [] => true
  | [_] => true
  | a :: b :: l => decide (b.rossScore ≤ a.rossScore) && sortedByRossDesc (b :: l)

/-- The getRecommendationColor switch of src/App.jsx. -/
def getRecommendationColor (recommendation : String) : String :=
  if recommendation = "STRONG BUY" then "bg-green-500"
  else if recommendation = "BUY" then "bg-green-400"
  else if recommendation = "HOLD" then "bg-yellow-500"
  else if recommendation = "SELL" then "bg-red-400"
  else if recommendation = "STRONG SELL" then "bg-red-500"
  else "bg-gray-500"

/-- The getRiskColor switch of src/App.jsx. -/
def getRiskColor (risk : String) : String :=
  if risk = "LOW" then "bg-green-500"
  else if risk = "MEDIUM" then "bg-yellow-500"
  else if risk = "HIGH" then "bg-red-500"
  else "bg-gray-500"

lemma dedupFirstAux_nodup (seen l) :
    (dedupFirstAux seen l).Nodup ∧ ∀ a ∈ dedupFirstAux seen l, a ∉ seen := by
  induction l generalizing seen with
  | nil => simp [dedupFirstAux]
  | cons a l ih =>
    by_cases h : a ∈ seen
    · simpa [dedupFirstAux, h] using ih seen
    · have hrec := ih (a :: seen)
      refine ⟨?_, ?_⟩
      · simp only [dedupFirstAux, h, if_false, List.nodup_cons]
        exact ⟨fun hmem => (hrec.2 a hmem) (List.mem_cons_self a seen), hrec.1⟩
      · intro x hx
        simp only [dedupFirstAux, h, if_false, List.mem_cons] at hx
        rcases hx with rfl | hx
        · exact h
        · have := hrec.2 x hx
          simp only [List.mem_cons, not_or] at this
          exact this.2

/-- C1: for every compositeScore in [0, 100], GradeClassifier returns
exactly one grade by the highest-first threshold table: at least 90 gives
A+, at least 85 gives A, at least 80 gives B+, at least 75 gives B, at
least 65 gives C, and anything below gives D; it is total with no other
output and no exception path. -/
theorem gradeClassifier_threshold_table (c : ℚ) (h0 : 0 ≤ c) (h1 : c ≤ 100) :
    (gradeOf c = .Aplus ↔ 90 ≤ c) ∧
    (gradeOf c = .A ↔ 85 ≤ c ∧ c < 90) ∧
    (gradeOf c = .Bplus ↔ 80 ≤ c ∧ c < 85) ∧
    (gradeOf c = .B ↔ 75 ≤ c ∧ c < 80) ∧
    (gradeOf c = .C ↔ 65 ≤ c ∧ c < 75) ∧
    (gradeOf c = .D ↔ c < 65) := by
  unfold gradeOf
  split_ifs with ha hb hc hd he <;>
    refine ⟨?_, ?_, ?_, ?_, ?_, ?_⟩ <;>
    simp_all <;> first | linarith | (intro hx; linarith)

theorem gradeClassifier_threshold_table_witness :
    gradeOf (87 : ℚ) = Grade.A :=
  ((gradeClassifier_threshold_table 87 (by norm_num) (by norm_num)).2.1).mpr
    (by norm_num)

/-- C2: RecommendationEngine maps scores to a recommendation (before the
negative-priceChangePct downgrade) by: rossScore at least 90 and
compositeScore at least 85 gives STRONG BUY; otherwise rossScore at least
75 gives BUY; otherwise at least 50 gives HOLD; otherwise at least 30
gives SELL; otherwise STRONG SELL. -/
theorem recommendationEngine_score_table (ross comp : ℚ) :
    (90 ≤ ross → 85 ≤ comp → baseRecommendation ross comp = .strongBuy) ∧
    (¬(90 ≤ ross ∧ 85 ≤ comp) → 75 ≤ ross →
      baseRecommendation ross comp = .buy) ∧
    (ross < 75 → 50 ≤ ross → baseRecommendation ross comp = .hold) ∧
    (ross < 50 → 30 ≤ ross → baseRecommendation ross comp = .sell) ∧
    (ross < 30 → baseRecommendation ross comp = .strongSell) := by
  unfold baseRecommendation
  split_ifs with h1 h2 h3 h4 <;>
    refine ⟨?_, ?_, ?_, ?_, ?_⟩ <;>
    simp_all <;> intros <;> linarith

theorem recommendationEngine_score_table_witness :
    baseRecommendation 95 90 = Recommendation.strongBuy :=
  (recommendationEngine_score_table 95 90).1 (by norm_num) (by norm_num)

/-- C4: for every positive price and any volatility factor, the trade
setup under the default configuration (riskRewardRatio 2.0) satisfies
stopLoss < entry < takeProfit and takeProfit minus entry equals exactly
twice entry minus stopLoss (exact over the rationals, hence within any
floating-point tolerance). -/
theorem tradeSetup_invariant (price vf : ℚ) (hp : 0 < price) :
    stopLossOf (entryPrice price) (stopDistance vf (entryPrice price)) <
      entryPrice price ∧
    entryPrice price <
      takeProfitOf (entryPrice price) (stopDistance vf (entryPrice price)) ∧
    takeProfitOf (entryPrice price) (stopDistance vf (entryPrice price)) -
      entryPrice price =
    2 * (entryPrice price -
      stopLossOf (entryPrice price) (stopDistance vf (entryPrice price))) := by
  have he : 0 < entryPrice price := by
    unfold entryPrice
    positivity
  have hcl : (5 / 100 : ℚ) ≤ clampQ (5 / 100) (15 / 100) vf := by
    unfold clampQ
    rw [maxQ_eq_max]
    exact le_max_left _ _
  have hsd : 0 < stopDistance vf (entryPrice price) := by
    unfold stopDistance
    have : (0 : ℚ) < clampQ (5 / 100) (15 / 100) vf := lt_of_lt_of_le (by norm_num) hcl
    exact mul_pos this he
  unfold stopLossOf takeProfitOf
  refine ⟨by linarith, by linarith, by ring⟩

theorem tradeSetup_invariant_witness :
    stopLossOf (entryPrice 100) (stopDistance 1 (entryPrice 100)) <
      entryPrice 100 ∧
    entryPrice 100 <
      takeProfitOf (entryPrice 100) (stopDistance 1 (entryPrice 100)) ∧
    takeProfitOf (entryPrice 100) (stopDistance 1 (entryPrice 100)) -
      entryPrice 100 =
    2 * (entryPrice 100 -
      stopLossOf (entryPrice 100) (stopDistance 1 (entryPrice 100))) :=
  tradeSetup_invariant 100 1 (by norm_num)

/-- C5 counterexample: a symbol exactly at the default target relative
volume of 2.0 scores 100, not 50, and saturation already holds at the
target itself, which is strictly below twice the target. -/
theorem volumePillar_target_counterexample :
    volumeScore 2 = 100 ∧ volumeScore 2 ≠ 50 ∧ ¬((2 : ℚ) ≥ 2 * 2) := by
  refine ⟨?_, ?_, by norm_num⟩ <;>
    norm_num [volumeScore, volumeScorer, minQ]

/-- C5 as amended: for every non-negative relativeVolume the volume pillar
equals min(100, 100 * relativeVolume / target) with the default target
2.0; a symbol exactly at the target scores 100, and the score saturates at
100 exactly when relativeVolume is at least the target. -/
theorem volumePillar_formula (rv : ℚ) (h : 0 ≤ rv) :
    volumeScore rv = min 100 (100 * rv / 2) ∧
    volumeScore 2 = 100 ∧
    (volumeScore rv = 100 ↔ 2 ≤ rv) := by
  have hdef : volumeScore rv = min 100 (100 * rv / 2) := by
    unfold volumeScore volumeScorer
    rw [minQ_eq_min]
  refine ⟨hdef, by norm_num [volumeScore, volumeScorer, minQ], ?_⟩
  rw [hdef]
  constructor
  · intro hmin
    by_contra hlt
    push_neg at hlt
    rw [min_eq_right (by linarith)] at hmin
    linarith
  · intro hge
    rw [min_eq_left (by linarith)]

theorem volumePillar_formula_witness :
    volumeScore 5 = min 100 (100 * 5 / 2) ∧
    volumeScore 2 = 100 ∧
    (volumeScore 5 = 100 ↔ (2 : ℚ) ≤ 5) :=
  volumePillar_formula 5 (by norm_num)

/-- C6: the float pillar is 100 when floatShares is at most 20M, decays
linearly to 0 at 30M, is 0 beyond 30M, and is antitone: a strictly smaller
float never yields a strictly smaller float pillar. -/
theorem floatPillar_spec (f g : ℚ) :
    (f ≤ 20000000 → floatScore f = 100) ∧
    (20000000 ≤ f → f ≤ 30000000 →
      floatScore f = (30000000 - f) * 100 / 10000000) ∧
    (30000000 ≤ f → floatScore f = 0) ∧
    (f < g → floatScore g ≤ floatScore f) := by
  refine ⟨?_, ?_, ?_, ?_⟩
  · intro h
    simp [floatScore, h]
  · intro h1 h2
    unfold floatScore
    split_ifs with ha hb
    · have : f = 20000000 := le_antisymm ha h1
      rw [this]
      norm_num
    · have : f = 30000000 := le_antisymm h2 hb
      rw [this]
      norm_num
    · rfl
  · intro h
    unfold floatScore
    split_ifs with ha <;> first | rfl | linarith
  · intro hfg
    unfold floatScore
    split_ifs with ha hb hc hd he hf hg <;> first | rfl | linarith

theorem floatPillar_spec_witness :
    floatScore 25000000 = 50 ∧ floatScore 28000000 ≤ floatScore 25000000 := by
  have h1 := (floatPillar_spec 25000000 28000000).2.1 (by norm_num) (by norm_num)
  have h2 := (floatPillar_spec 25000000 28000000).2.2.2 (by norm_num)
  rw [h1] at h2 ⊢
  norm_num at h2 ⊢
  exact h2

/-- C3 counterexample: with one FDA-class catalyst the catalyst pillar of
the spec point table is 40, nowhere near 85, and the resulting rossScore
of the scenario is 88, not approximately 97. -/
theorem scenario_gits_counterexample :
    catalystScore [Catalyst.fda] = 40 ∧
    ¬(80 ≤ catalystScore [Catalyst.fda]) ∧
    rossScoreOf 100 100 100 (catalystScore [Catalyst.fda]) 100 = 88 ∧
    ¬(95 ≤ rossScoreOf 100 100 100 (catalystScore [Catalyst.fda]) 100) := by
  have h : catalystScore [Catalyst.fda] = 40 := by
    norm_num [catalystScore, catalystPoints, minQ]
  rw [h]
  norm_num [rossScoreOf]

/-- C3 as amended: for the scenario snapshot (price 3.84, priceChangePct
135.58, relativeVolume 47.56, floatShares 1.3M) the volume, priceChange,
float and priceRange pillars are all 100 and the risk tier is HIGH
(relativeVolume 47.56 exceeds 15 and floatShares 1.3M is below 5M).  One
FDA catalyst scores 40 points, giving rossScore 88; a catalyst set worth
85 points (FDA plus partnership plus earnings beat, matching the
approximately-85 catalyst pillar of the scenario) gives rossScore 97, and
with bullish EMA alignment and neutral sentiment the compositeScore is
90.7, the grade is A+ and the recommendation is STRONG BUY. -/
theorem scenario_gits_amended :
    volumeScore (4756 / 100) = 100 ∧
    priceChangeScore (13558 / 100) = 100 ∧
    floatScore 1300000 = 100 ∧
    priceRangeScore (384 / 100) = 100 ∧
    riskOf 1300000 (4756 / 100) = RiskTier.high ∧
    catalystScore [Catalyst.fda] = 40 ∧
    rossScoreOf 100 100 100 40 100 = 88 ∧
    catalystScore [Catalyst.fda, Catalyst.partnership, Catalyst.earningsBeat] = 85 ∧
    rossScoreOf 100 100 100 85 100 = 97 ∧
    technicalScore (384 / 100) (some 3) (some (5 / 2)) = 100 ∧
    newsScore none = 50 ∧
    compositeScoreOf 97 100 50 = 907 / 10 ∧
    gradeOf (907 / 10) = Grade.Aplus ∧
    recommendationOf 97 (907 / 10) (13558 / 100) = Recommendation.strongBuy := by
  refine ⟨?_, ?_, ?_, ?_, ?_, ?_, ?_, ?_, ?_, ?_, ?_, ?_, ?_, ?_⟩ <;>
    norm_num [volumeScore, volumeScorer, priceChangeScore, floatScore,
      priceRangeScore, riskOf, catalystScore, catalystPoints, rossScoreOf,
      technicalScore, newsScore, compositeScoreOf, gradeOf,
      recommendationOf, baseRecommendation, minQ, maxQ, clampQ,
      abs_of_nonneg]

/-- C8: the caller-visible Top Ross Cameron Signals list in src/App.jsx is
sampleStocks.slice(0, 3) with no sorting: it renders GITS, NVAX, MEME,
which is not in rossScore-descending order (NVAX 85 precedes MEME 95),
while the stable sort of the specification (rossScore descending,
compositeScore descending, symbol ascending) yields GITS, MEME, NVAX,
TSLA. -/
theorem topSignals_not_ranked :
    topSignalsDisplayed.map SignalRow.symbol = ["GITS", "NVAX", "MEME"] ∧
    sortedByRossDesc topSignalsDisplayed = false ∧
    (rankSignals sampleStocks).map SignalRow.symbol =
      ["GITS", "MEME", "NVAX", "TSLA"] ∧
    sortedByRossDesc (rankSignals sampleStocks) = true := by
  refine ⟨by decide, by decide, by decide, by decide⟩

/-- C9: for every candidate tag list produced by the severity-ordered rule
table, the alert output has no duplicate tags and length at most 4, since
AlertGenerator deduplicates keeping first (hence highest-severity, with
ties in rule-table order) occurrences and then truncates to 4; the GITS
alert fixture of src/App.jsx also satisfies the invariant. -/
theorem alertGenerator_bounded_nodup (candidates : List String) :
    (alertGenerator candidates).length ≤ 4 ∧
    (alertGenerator candidates).Nodup ∧
    gitsAlerts.length ≤ 4 ∧ gitsAlerts.Nodup := by
  refine ⟨?_, ?_, by decide, by decide⟩
  · calc (alertGenerator candidates).length
        = min 4 (dedupFirst candidates).length := List.length_take 4 _
      _ ≤ 4 := min_le_left _ _
  · exact ((dedupFirstAux_nodup [] candidates).1).sublist
      (List.take_sublist 4 (dedupFirst candidates))

/-- C10: the UI badge-colour helpers of src/App.jsx are total over all
strings: getRecommendationColor maps the five recommendation strings to
their colours and every other string to bg-gray-500, and getRiskColor maps
the three risk strings to their colours and every other string to
bg-gray-500; neither has an exception path. -/
theorem colorHelpers_total (s t : String)
    (hs : s ∉ ["STRONG BUY", "BUY", "HOLD", "SELL", "STRONG SELL"])
    (ht : t ∉ ["LOW", "MEDIUM", "HIGH"]) :
    getRecommendationColor "STRONG BUY" = "bg-green-500" ∧
    getRecommendationColor "BUY" = "bg-green-400" ∧
    getRecommendationColor "HOLD" = "bg-yellow-500" ∧
    getRecommendationColor "SELL" = "bg-red-400" ∧
    getRecommendationColor "STRONG SELL" = "bg-red-500" ∧
    getRecommendationColor s = "bg-gray-500" ∧
    getRiskColor "LOW" = "bg-green-500" ∧
    getRiskColor "MEDIUM" = "bg-yellow-500" ∧
    getRiskColor "HIGH" = "bg-red-500" ∧
    getRiskColor t = "bg-gray-500" := by
  simp only [List.mem_cons, List.mem_singleton, not_or] at hs ht
  refine ⟨by rfl, by rfl, by rfl, by rfl, by rfl, ?_, by rfl, by rfl, by rfl, ?_⟩
  · unfold getRecommendationColor
    split_ifs with h1 h2 h3 h4 h5 <;> simp_all
  · unfold getRiskColor
    split_ifs with h1 h2 h3 <;> simp_all

theorem colorHelpers_total_witness :
    getRecommendationColor "STRONG BUY" = "bg-green-500" ∧
    getRecommendationColor "BUY" = "bg-green-400" ∧
    getRecommendationColor "HOLD" = "bg-yellow-500" ∧
    getRecommendationColor "SELL" = "bg-red-400" ∧
    getRecommendationColor "STRONG SELL" = "bg-red-500" ∧
    getRecommendationColor "N/A" = "bg-gray-500" ∧
    getRiskColor "LOW" = "bg-green-500" ∧
    getRiskColor "MEDIUM" = "bg-yellow-500" ∧
    getRiskColor "HIGH" = "bg-red-500" ∧
    getRiskColor "N/A" = "bg-gray-500" :=
  colorHelpers_total "N/A" "N/A" (by decide) (by decide)

end MomentumTrader
